import Mathlib

/-!
# rentFalcon — scraper aggregation core, shallow embedding

A shallow embedding of the listing-aggregation core of the rentFalcon
repository (`scrapers/scraper_manager.py` and `scrapers/base_scraper.py`),
with theorems checking the natural-language specification against it.

Conventions of the embedding:
* Python dictionaries holding canonical listings are modelled by the
  `Listing` structure; only the fields consulted by the modelled
  operations (`url`, `title`, `location`, `price`) are carried.  String
  fields use `""` for both "absent key" and "empty string", exactly as the
  Python code does (it only ever tests them for truthiness, where both are
  falsy).  `price` is `Option ℚ`: `none` models both a missing key and a
  stored `None`.
* Python floats are modelled by `ℚ`.  All concrete inputs used below stay
  far from comparison boundaries, so the difference between binary
  floating point and exact rationals cannot change any branch taken.
* A Python function that can raise an exception is modelled in
  `Except ε`; an exception propagating through a caller is modelled by
  threading the `Except` value.
* The `ScraperManager._text_similarity` helper delegates to
  `difflib.SequenceMatcher(None, a, b).ratio()`.  The development is
  parameterised over that ratio function (`ratio : String → String → ℚ`);
  theorems quantified over `ratio` hold for every choice of it, in
  particular for difflib's.  Closed witnesses instantiate it with
  `eqRatio`, which agrees with difflib on the cases they exercise
  (identical strings score `1`, strings sharing no characters score `0`).
-/

deriving instance DecidableEq for Except

namespace RentFalcon

/-- A canonical listing, restricted to the fields the manager's
deduplication, sorting and filtering logic reads.  `url = ""` models an
absent or empty URL (the code only tests truthiness); likewise for
`title` and `location`.  `price = none` models an absent price. -/
structure Listing where
  url : String
  title : String
  location : String
  price : Option ℚ
deriving DecidableEq, Repr

/-- Python `str.lower()`, character by character.  (Python's `lower` and
this differ only on exotic non-ASCII case mappings, which affect no
branch here; on ASCII they agree exactly.) -/
def pyLower (s : String) : String := String.mk (s.data.map Char.toLower)

/-- A whitespace character as `str.strip()` with no argument sees it
(restricted to the ASCII whitespace class). -/
def isPySpace (c : Char) : Bool :=
  c = ' ' || c = '\t' || c = '\n' || c = '\r' || c = '\x0b' || c = '\x0c'

/-- Python `str.strip()`: drop leading and trailing whitespace. -/
def pyStrip (s : String) : String :=
  String.mk (((s.data.dropWhile isPySpace).reverse.dropWhile isPySpace).reverse)

/-- Python truthiness of a price value: `listing.get("price")` is truthy
iff the price is present and nonzero (both `None` and `0` are falsy). -/
def priceTruthy (p : Option ℚ) : Bool :=
  match p with
  | some q => decide (q ≠ 0)
  | none => false

/-- The price gate of `_listings_similar` (scraper_manager.py lines
366–375).  Returns `false` exactly when the code executes
`return False  # Prices too different`: both prices truthy and
`abs(price1 - price2) > min(max(price1, price2) * 0.05, 50)`.
Note the source computes the threshold with `min`, although its own
comment says "must be within 5% or $50". -/
def priceGateOk (l1 l2 : Listing) : Bool :=
  match l1.price, l2.price with
  | some p1, some p2 =>
      if p1 ≠ 0 ∧ p2 ≠ 0 then
        decide (|p1 - p2| ≤ min (max p1 p2 * (5 / 100)) 50)
      else true
  | _, _ => true

/-- The location block of `_listings_similar` (lines 387–401) together
with the final `return False`.  `titleSim` is the state of the Python
local variable `title_similarity` at entry: `none` means it was never
assigned, and evaluating `title_similarity >= 0.7` then raises
`UnboundLocalError`, modelled as `Except.error ()`. -/
def locationCheck (ratio : String → String → ℚ) (thr : ℚ)
    (titleSim : Option ℚ) (l1 l2 : Listing) : Except Unit Bool :=
  let loc1 := pyLower l1.location
  let loc2 := pyLower l2.location
  if loc1 ≠ "" ∧ loc2 ≠ "" then
    let locSim := ratio loc1 loc2
    match titleSim with
    | some ts => Except.ok (decide (7 / 10 ≤ ts ∧ thr ≤ locSim))
    | none => Except.error ()
  else
    Except.ok false

/-- `ScraperManager._listings_similar` (lines 349–401), the fuzzy
similarity predicate.  `thr` is `self.similarity_threshold`
(default `0.85`).  The `Except Unit` layer records the possibility of an
uncaught `UnboundLocalError` (see `locationCheck`). -/
def listingsSimilar (ratio : String → String → ℚ) (thr : ℚ)
    (l1 l2 : Listing) : Except Unit Bool :=
  if l1.url ≠ "" ∧ l2.url ≠ "" then
    Except.ok (decide (l1.url = l2.url))
  else if priceGateOk l1 l2 then
    let t1 := pyLower l1.title
    let t2 := pyLower l2.title
    if t1 ≠ "" ∧ t2 ≠ "" then
      let ts := ratio t1 t2
      if thr ≤ ts then Except.ok true
      else locationCheck ratio thr (some ts) l1 l2
    else
      locationCheck ratio thr none l1 l2
  else
    Except.ok false

/-- How the signature renders the price: the Python f-string interpolates
the stored value, giving `"None"` for an absent price (standardized
listings always carry the `price` key, possibly `None`). -/
def pricePyStr (p : Option ℚ) : String :=
  match p with
  | some q => toString q
  | none => "None"

/-- `ScraperManager._create_listing_signature` (lines 309–328): the URL
when non-empty, otherwise `f"{title}|{price}|{location}"` over the
lower-cased, stripped title and location. -/
def listingSignature (l : Listing) : String :=
  if l.url ≠ "" then l.url
  else
    pyStrip (pyLower l.title) ++ "|" ++ pricePyStr l.price ++ "|" ++
      pyStrip (pyLower l.location)

/-- `ScraperManager._is_duplicate` (lines 330–347): scan the accepted
listings in order, returning at the first fuzzy match; an exception from
`_listings_similar` propagates. -/
def isDuplicate (ratio : String → String → ℚ) (thr : ℚ) (l : Listing) :
    List Listing → Except Unit Bool
  | [] => Except.ok false
  | u :: us =>
    match listingsSimilar ratio thr l u with
    | Except.error e => Except.error e
    | Except.ok true => Except.ok true
    | Except.ok false => isDuplicate ratio thr l us

/-- State of the deduplication loop: the accepted listings (in order) and
the set of seen signatures. -/
abbrev DedupState := List Listing × List String

/-- One iteration of the `_deduplicate_listings` loop body (lines
286–305) on one listing: drop on a seen signature, else drop on a fuzzy
duplicate, else accept and record the signature. -/
def dedupStep (ratio : String → String → ℚ) (thr : ℚ)
    (st : DedupState) (l : Listing) : Except Unit DedupState :=
  if listingSignature l ∈ st.2 then Except.ok st
  else
    match isDuplicate ratio thr l st.1 with
    | Except.error e => Except.error e
    | Except.ok true => Except.ok st
    | Except.ok false => Except.ok (st.1 ++ [l], listingSignature l :: st.2)

/-- The `_deduplicate_listings` loop over the input listings, threading
the state; an exception from the fuzzy check aborts the whole pass. -/
def dedupAux (ratio : String → String → ℚ) (thr : ℚ) :
    List Listing → DedupState → Except Unit DedupState
  | [], st => Except.ok st
  | l :: ls, st =>
    match dedupStep ratio thr st l with
    | Except.error e => Except.error e
    | Except.ok st1 => dedupAux ratio thr ls st1

/-- `ScraperManager._deduplicate_listings` (lines 268–307). -/
def dedupListings (ratio : String → String → ℚ) (thr : ℚ)
    (ls : List Listing) : Except Unit (List Listing) :=
  match dedupAux ratio thr ls ([], []) with
  | Except.error e => Except.error e
  | Except.ok st => Except.ok st.1

/-- `BaseScraper.filter_results` (base_scraper.py lines 230–265),
translated loop-for-loop: skip when the price is `None`, skip when a given
`min_price` exceeds it, skip when it exceeds a given `max_price`,
otherwise append. -/
def filterResults : List Listing → Option ℚ → Option ℚ → List Listing
  | [], _, _ => []
  | l :: ls, minP, maxP =>
    match l.price with
    | none => filterResults ls minP maxP
    | some p =>
      if (match minP with | some m => decide (p < m) | none => false) then
        filterResults ls minP maxP
      else if (match maxP with | some mx => decide (mx < p) | none => false) then
        filterResults ls minP maxP
      else
        l :: filterResults ls minP maxP

/-- The sort key of `search_all`'s final sort,
`key=lambda x: x.get("price") or float("inf")`: a truthy (present,
nonzero) price is its own key; an absent or zero price becomes
`float("inf")`, modelled by `none`. -/
def priceKey (l : Listing) : Option ℚ :=
  match l.price with
  | some p => if p = 0 then none else some p
  | none => none

/-- Boolean comparison of sort keys, with `none` playing `float("inf")`:
everything is `≤ inf`, and `inf ≤ q` only for `inf` itself. -/
def keyLeb (a b : Listing) : Bool :=
  match priceKey a, priceKey b with
  | _, none => true
  | none, some _ => false
  | some p, some q => decide (p ≤ q)

/-- The ordering relation of the final sort. -/
def keyLE (a b : Listing) : Prop := keyLeb a b = true

instance : DecidableRel keyLE := fun a b => by
  unfold keyLE; infer_instance

instance : IsTotal Listing keyLE := by
  constructor
  intro a b
  unfold keyLE keyLeb
  rcases priceKey a with _ | p <;> rcases priceKey b with _ | q <;> simp
  exact le_total p q

instance : IsTrans Listing keyLE := by
  constructor
  intro a b c
  unfold keyLE keyLeb
  rcases priceKey a with _ | p <;> rcases priceKey b with _ | q <;>
    rcases priceKey c with _ | s <;> simp
  exact le_trans

/-- The final sort of `search_all` (line 189),
`unique_listings.sort(key=lambda x: x.get("price") or float("inf"))`.
Python's `list.sort` is the stable ascending sort by the key; insertion
sort with the total preorder `keyLE` computes exactly that list. -/
def pySortListings (ls : List Listing) : List Listing :=
  List.insertionSort keyLE ls

/-- A concrete similarity-ratio function for closed inputs: it agrees with
difflib's `SequenceMatcher.ratio` on the cases the closed theorems
exercise — identical strings score `1`, strings sharing no characters
score `0`. -/
def eqRatio (s t : String) : ℚ := if s = t then 1 else 0

/-! ## The manager's search pipeline

`ScraperManager.search_all` (lines 86–210) submits one `_run_scraper`
task per enabled scraper to a thread pool and collects results with
`as_completed(future_to_scraper, timeout=self.timeout)`.  The semantics
of `as_completed`: futures already completed are yielded (in completion
order); once the deadline has expired a further `__next__` with tasks
still pending raises `concurrent.futures.TimeoutError`.  That raise
happens in the `for` statement itself, outside the loop body's
`try`/`except`, so it propagates out of `search_all`.  The model
therefore takes the batch as the list of outcomes that completed before
the deadline (in completion order) plus the names of the adapters still
running when it expired. -/

/-- What a single scraper's `search` pipeline (URL building, fetch,
parse, standardize) does on one run: either it produces listings, or one
of the steps raises. -/
inductive StepResult where
  | ok (ls : List Listing)
  | raises (msg : String)
deriving DecidableEq, Repr

/-- `BaseScraper.search` (base_scraper.py lines 129–199): the whole
pipeline runs inside `try`; any exception — `requests.RequestException`
or any other `Exception` — is caught, logged, and an **empty list**
returned, with no error reported to the caller.  On success the
standardized listings are passed through `filter_results`. -/
def baseSearch (pipeline : StepResult) (minP maxP : Option ℚ) :
    List Listing :=
  match pipeline with
  | StepResult.ok ls => filterResults ls minP maxP
  | StepResult.raises _ => []

/-- What can happen inside one `_run_scraper` call: either instantiating
the scraper class raises (escaping to `_run_scraper`'s `except`), or the
instance's `search` runs with the given pipeline fate. -/
inductive AdapterRun where
  | initRaises (msg : String)
  | runs (pipeline : StepResult)
deriving DecidableEq, Repr

/-- The per-outcome record built by `_run_scraper` (lines 212–266):
`success`/`listings`/`error` (execution_time is wall-clock and not
modelled). -/
structure Outcome where
  success : Bool
  listings : List Listing
  error : Option String
deriving DecidableEq, Repr

/-- `ScraperManager._run_scraper`: everything is inside `try`; an
exception that escapes `scraper.search` — in practice only one raised
before or outside `search`'s own `try`, such as a failing constructor —
yields a failed outcome with the message; `search` itself never raises,
so a fetch/parse error inside it yields a *successful* outcome with an
empty listing list. -/
def runScraperModel (run : AdapterRun) (minP maxP : Option ℚ) : Outcome :=
  match run with
  | AdapterRun.initRaises msg =>
      { success := false, listings := [], error := some msg }
  | AdapterRun.runs pipeline =>
      { success := true, listings := baseSearch pipeline minP maxP,
        error := none }

/-- The manager's `self.stats` dictionary (lines 76–84), minus the
wall-clock `execution_time` entry.  `by_source` models the nested dict as
an insertion-ordered association list. -/
structure Stats where
  total_listings : Nat
  unique_listings : Nat
  duplicates_removed : Nat
  scrapers_succeeded : Nat
  scrapers_failed : Nat
  by_source : List (String × Nat)
deriving DecidableEq, Repr

/-- The stats dictionary as `__init__` (and `reset_stats`) creates it. -/
def initStats : Stats :=
  { total_listings := 0, unique_listings := 0, duplicates_removed := 0,
    scrapers_succeeded := 0, scrapers_failed := 0, by_source := [] }

/-- Python dict assignment `d[k] = v` on an insertion-ordered association
list: overwrite in place if the key exists, else append. -/
def setAssoc : List (String × Nat) → String → Nat → List (String × Nat)
  | [], k, v => [(k, v)]
  | (k1, v1) :: rest, k, v =>
    if k1 = k then (k, v) :: rest else (k1, v1) :: setAssoc rest k v

/-- The result-collection loop of `search_all` (lines 137–165) over the
outcomes that completed before the deadline, threading the manager's
mutable `self.stats`, the local `errors` dict and the local
`all_listings` list.  A successful outcome extends the listings,
increments `scrapers_succeeded` and records the per-source count; a
failed one increments `scrapers_failed` and records the error message. -/
def collectOutcomes (stats : Stats) (errors : List (String × String))
    (acc : List Listing) :
    List (String × Outcome) → Stats × List (String × String) × List Listing
  | [] => (stats, errors, acc)
  | (name, o) :: rest =>
    if o.success then
      collectOutcomes
        { stats with
            scrapers_succeeded := stats.scrapers_succeeded + 1,
            by_source := setAssoc stats.by_source name o.listings.length }
        errors (acc ++ o.listings) rest
    else
      collectOutcomes
        { stats with scrapers_failed := stats.scrapers_failed + 1 }
        (errors ++ [(name, o.error.getD "")]) acc rest

/-- The two ways `search_all` can terminate abnormally: the
`TimeoutError` raised by `as_completed` when the deadline expires with
tasks still pending, and the `UnboundLocalError` escaping
`_deduplicate_listings` (see `locationCheck`). -/
inductive SearchError where
  | timeout
  | nameError
deriving DecidableEq, Repr

/-- The value `search_all` returns on normal termination: the sorted
unique listings, a copy of `self.stats`, and this invocation's `errors`
dict.  (`search_params` and `timestamp` are echoes of the inputs and the
clock and are not modelled.) -/
structure Response where
  listings : List Listing
  stats : Stats
  errors : List (String × String)
deriving DecidableEq, Repr

/-- `ScraperManager.search_all` (lines 86–210).  `stats0` is the state of
`self.stats` on entry — `initStats` for a freshly constructed manager,
the previous call's final stats otherwise (nothing in `search_all` resets
it).  `completed` are the outcomes collected before the deadline in
completion order; `stillRunning` names the adapters still pending when it
expired (empty when the batch beat the deadline).  With tasks still
pending the `as_completed` iterator raises and the whole call aborts;
otherwise the listings are deduplicated (when enabled and more than one
was collected), the stats updated, and the sorted response built.
Because the response embeds `self.stats.copy()` taken after all updates,
the response's `stats` field also is `self.stats` as the next call will
find it. -/
def searchAllModel (ratio : String → String → ℚ) (thr : ℚ)
    (dedup : Bool) (stats0 : Stats)
    (completed : List (String × Outcome)) (stillRunning : List String) :
    Except SearchError Response :=
  let collected := collectOutcomes stats0 [] [] completed
  let s1 := collected.1
  let errors := collected.2.1
  let allListings := collected.2.2
  if stillRunning = [] then
    let s2 := { s1 with total_listings := allListings.length }
    if dedup ∧ 1 < allListings.length then
      match dedupListings ratio thr allListings with
      | Except.error _ => Except.error SearchError.nameError
      | Except.ok uniq =>
        let s3 := { s2 with
            unique_listings := uniq.length,
            duplicates_removed := allListings.length - uniq.length }
        Except.ok
          { listings := pySortListings uniq, stats := s3, errors := errors }
    else
      let s3 := { s2 with
          unique_listings := allListings.length, duplicates_removed := 0 }
      Except.ok
        { listings := pySortListings allListings, stats := s3,
          errors := errors }
  else
    Except.error SearchError.timeout

/-! ## Deduplication lemmas

The key fact behind idempotence of deduplication on a self-union: once a
pass over `L` has finished in state `st`, every listing of `L` is
*absorbed* by `st` — its signature was recorded, or it matches an accepted
listing — and processing an absorbed listing leaves the state unchanged. -/

section DedupLemmas

variable (ratio : String → String → ℚ) (thr : ℚ)

/-- A found fuzzy duplicate stays found when the accepted list grows on
the right: `_is_duplicate` scans left to right and returns at the first
match, so the appended tail is never consulted. -/
theorem isDuplicate_append_of_true {l : Listing} {us : List Listing}
    (vs : List Listing) (h : isDuplicate ratio thr l us = Except.ok true) :
    isDuplicate ratio thr l (us ++ vs) = Except.ok true := by
  induction us with
  | nil => simp [isDuplicate] at h
  | cons u us ih =>
    rw [List.cons_append]
    rw [isDuplicate] at h ⊢
    split at h
    · cases h
    · rfl
    · exact ih h

/-- `st'` extends `st`: the accepted listings grow only by appending on
the right, and the seen-signature set only grows. -/
def StateExt (st st' : DedupState) : Prop :=
  (∃ v, st'.1 = st.1 ++ v) ∧ ∀ s, s ∈ st.2 → s ∈ st'.2

theorem stateExt_refl (st : DedupState) : StateExt st st :=
  ⟨⟨[], (List.append_nil _).symm⟩, fun _ h => h⟩

theorem stateExt_trans {a b c : DedupState} (h1 : StateExt a b)
    (h2 : StateExt b c) : StateExt a c := by
  obtain ⟨⟨v1, hv1⟩, hs1⟩ := h1
  obtain ⟨⟨v2, hv2⟩, hs2⟩ := h2
  exact ⟨⟨v1 ++ v2, by rw [hv2, hv1, List.append_assoc]⟩,
    fun s hs => hs2 s (hs1 s hs)⟩

/-- One successful loop iteration extends the state. -/
theorem dedupStep_ext {st st' : DedupState} {l : Listing}
    (h : dedupStep ratio thr st l = Except.ok st') : StateExt st st' := by
  rw [dedupStep] at h
  by_cases hmem : listingSignature l ∈ st.2
  · rw [if_pos hmem] at h
    cases h
    exact stateExt_refl st
  · rw [if_neg hmem] at h
    cases hdup : isDuplicate ratio thr l st.1 with
    | error e => rw [hdup] at h; cases h
    | ok b =>
      rw [hdup] at h
      cases b with
      | true =>
        cases h
        exact stateExt_refl st
      | false =>
        cases h
        exact ⟨⟨[l], rfl⟩, fun s hs => List.mem_cons_of_mem _ hs⟩

/-- A successful pass over any listing list extends the state. -/
theorem dedupAux_ext {ls : List Listing} {st st' : DedupState}
    (h : dedupAux ratio thr ls st = Except.ok st') : StateExt st st' := by
  induction ls generalizing st with
  | nil => rw [dedupAux] at h; cases h; exact stateExt_refl st'
  | cons l ls ih =>
    rw [dedupAux] at h
    cases hstep : dedupStep ratio thr st l with
    | error e => rw [hstep] at h; cases h
    | ok st1 =>
      rw [hstep] at h
      exact stateExt_trans (dedupStep_ext ratio thr hstep) (ih h)

/-- A listing is absorbed by a state if its signature was seen or it is a
fuzzy duplicate of an accepted listing. -/
def Absorbed (l : Listing) (st : DedupState) : Prop :=
  listingSignature l ∈ st.2 ∨ isDuplicate ratio thr l st.1 = Except.ok true

/-- Absorption is preserved by state extension. -/
theorem absorbed_mono {l : Listing} {st st' : DedupState}
    (h : Absorbed ratio thr l st) (he : StateExt st st') :
    Absorbed ratio thr l st' := by
  obtain ⟨⟨v, hv⟩, hs⟩ := he
  cases h with
  | inl hmem => exact Or.inl (hs _ hmem)
  | inr hdup =>
    exact Or.inr (hv ▸ isDuplicate_append_of_true ratio thr v hdup)

/-- After a successful loop iteration on `l`, `l` is absorbed by the
resulting state. -/
theorem dedupStep_absorbed {st st' : DedupState} {l : Listing}
    (h : dedupStep ratio thr st l = Except.ok st') :
    Absorbed ratio thr l st' := by
  rw [dedupStep] at h
  by_cases hmem : listingSignature l ∈ st.2
  · rw [if_pos hmem] at h
    cases h
    exact Or.inl hmem
  · rw [if_neg hmem] at h
    cases hdup : isDuplicate ratio thr l st.1 with
    | error e => rw [hdup] at h; cases h
    | ok b =>
      rw [hdup] at h
      cases b with
      | true =>
        cases h
        exact Or.inr hdup
      | false =>
        cases h
        exact Or.inl (List.mem_cons_self _ _)

/-- Processing an absorbed listing is a no-op: the signature check or the
fuzzy check drops it, and neither can fail. -/
theorem dedupStep_of_absorbed {st : DedupState} {l : Listing}
    (h : Absorbed ratio thr l st) : dedupStep ratio thr st l = Except.ok st := by
  rw [dedupStep]
  by_cases hmem : listingSignature l ∈ st.2
  · rw [if_pos hmem]
  · rw [if_neg hmem]
    cases h with
    | inl hc => exact absurd hc hmem
    | inr hdup => rw [hdup]

/-- After a successful pass over `ls` from any state, every listing of
`ls` is absorbed by the final state. -/
theorem dedupAux_absorbed {ls : List Listing} {st st' : DedupState}
    (h : dedupAux ratio thr ls st = Except.ok st') :
    ∀ l ∈ ls, Absorbed ratio thr l st' := by
  induction ls generalizing st with
  | nil => intro l hl; cases hl
  | cons x ls ih =>
    rw [dedupAux] at h
    cases hstep : dedupStep ratio thr st x with
    | error e => rw [hstep] at h; cases h
    | ok st1 =>
      rw [hstep] at h
      intro l hl
      cases List.mem_cons.mp hl with
      | inl hx =>
        subst hx
        exact absorbed_mono ratio thr (dedupStep_absorbed ratio thr hstep)
          (dedupAux_ext ratio thr h)
      | inr hmem => exact ih h l hmem

/-- A pass over listings that are all absorbed leaves the state fixed. -/
theorem dedupAux_noop {ls : List Listing} {st : DedupState}
    (h : ∀ l ∈ ls, Absorbed ratio thr l st) :
    dedupAux ratio thr ls st = Except.ok st := by
  induction ls with
  | nil => rfl
  | cons x ls ih =>
    rw [dedupAux, dedupStep_of_absorbed ratio thr (h x (List.mem_cons_self _ _))]
    exact ih fun l hl => h l (List.mem_cons_of_mem _ hl)

/-- The loop over a concatenation runs the two halves in sequence. -/
theorem dedupAux_append (ls1 ls2 : List Listing) (st : DedupState) :
    dedupAux ratio thr (ls1 ++ ls2) st =
      match dedupAux ratio thr ls1 st with
      | Except.error e => Except.error e
      | Except.ok st1 => dedupAux ratio thr ls2 st1 := by
  induction ls1 generalizing st with
  | nil => rw [List.nil_append, dedupAux]
  | cons x ls1 ih =>
    rw [List.cons_append, dedupAux, dedupAux]
    cases hstep : dedupStep ratio thr st x with
    | error e => rfl
    | ok st1 => exact ih st1

end DedupLemmas

/-! ## Sorting lemmas -/

section SortLemmas

/-- Listings with equal sort keys always compare `≤`. -/
theorem keyLE_of_priceKey_eq {x y : Listing} (h : priceKey x = priceKey y) :
    keyLE x y := by
  unfold keyLE keyLeb
  rw [h]
  cases priceKey y with
  | none => rfl
  | some q => simp

/-- If a listing with key `inf` precedes another under `keyLE`, the other
also has key `inf`. -/
theorem priceKey_none_of_keyLE {x y : Listing} (hx : priceKey x = none)
    (h : keyLE x y) : priceKey y = none := by
  unfold keyLE keyLeb at h
  rw [hx] at h
  cases hy : priceKey y with
  | none => rfl
  | some q => rw [hy] at h; cases h

/-- Ordered insertion never moves the inserted element past an element
with the same key, so it preserves each key class of the filter. -/
theorem filter_key_orderedInsert (k : Option ℚ) (x : Listing)
    (l : List Listing) :
    (List.orderedInsert keyLE x l).filter (fun y => priceKey y == k) =
      ((x :: l).filter (fun y => priceKey y == k)) := by
  induction l with
  | nil => rfl
  | cons y ys ih =>
    rw [List.orderedInsert]
    by_cases hxy : keyLE x y
    · rw [if_pos hxy]
    · rw [if_neg hxy]
      have hne : priceKey x ≠ priceKey y := fun hc => hxy (keyLE_of_priceKey_eq hc)
      by_cases hpx : priceKey x = k <;> by_cases hpy : priceKey y = k
      · exact absurd (hpx.trans hpy.symm) hne
      all_goals simp [List.filter_cons, hpx, hpy, ih, List.filter_cons]

/-- Stability of the final sort: for every key value, the subsequence of
listings with that key is unchanged — elements comparing equal keep their
original relative order. -/
theorem filter_key_pySort (k : Option ℚ) (l : List Listing) :
    (pySortListings l).filter (fun y => priceKey y == k) =
      l.filter (fun y => priceKey y == k) := by
  induction l with
  | nil => rfl
  | cons x xs ih =>
    rw [pySortListings, List.insertionSort]
    rw [show List.insertionSort keyLE xs = pySortListings xs from rfl]
    rw [filter_key_orderedInsert]
    by_cases hpx : priceKey x = k <;>
      simp [List.filter_cons, hpx, ih]

/-- The final sort orders the output by `keyLE`. -/
theorem sorted_pySort (l : List Listing) :
    List.Sorted keyLE (pySortListings l) :=
  List.sorted_insertionSort keyLE l

/-- The final sort permutes its input. -/
theorem perm_pySort (l : List Listing) : (pySortListings l).Perm l :=
  List.perm_insertionSort keyLE l

end SortLemmas

/-! ## Collection-loop lemmas -/

section CollectLemmas

/-- Number of successful outcomes in a batch. -/
def succCount (outs : List (String × Outcome)) : Nat :=
  (outs.filter fun no => no.2.success).length

/-- Number of failed outcomes in a batch. -/
def failCount (outs : List (String × Outcome)) : Nat :=
  (outs.filter fun no => !no.2.success).length

/-- The error entries the collection loop records: one per failed
outcome, in completion order. -/
def errEntries : List (String × Outcome) → List (String × String)
  | [] => []
  | (name, o) :: rest =>
    if o.success then errEntries rest
    else (name, o.error.getD "") :: errEntries rest

/-- The listings the collection loop accumulates: the successful
outcomes' listings concatenated in completion order. -/
def batchListings : List (String × Outcome) → List Listing
  | [] => []
  | (_, o) :: rest =>
    if o.success then o.listings ++ batchListings rest else batchListings rest

theorem collect_succeeded (outs : List (String × Outcome)) :
    ∀ stats errors acc,
      (collectOutcomes stats errors acc outs).1.scrapers_succeeded =
        stats.scrapers_succeeded + succCount outs := by
  induction outs with
  | nil => intro stats errors acc; simp [collectOutcomes, succCount]
  | cons no rest ih =>
    intro stats errors acc
    obtain ⟨name, o⟩ := no
    by_cases ho : o.success <;>
      (simp [collectOutcomes, ho, ih, succCount, List.filter_cons]; try omega)

theorem collect_failed (outs : List (String × Outcome)) :
    ∀ stats errors acc,
      (collectOutcomes stats errors acc outs).1.scrapers_failed =
        stats.scrapers_failed + failCount outs := by
  induction outs with
  | nil => intro stats errors acc; simp [collectOutcomes, failCount]
  | cons no rest ih =>
    intro stats errors acc
    obtain ⟨name, o⟩ := no
    by_cases ho : o.success <;>
      (simp [collectOutcomes, ho, ih, failCount, List.filter_cons]; try omega)

theorem collect_errors (outs : List (String × Outcome)) :
    ∀ stats errors acc,
      (collectOutcomes stats errors acc outs).2.1 =
        errors ++ errEntries outs := by
  induction outs with
  | nil => intro stats errors acc; simp [collectOutcomes, errEntries]
  | cons no rest ih =>
    intro stats errors acc
    obtain ⟨name, o⟩ := no
    by_cases ho : o.success <;> simp [collectOutcomes, ho, ih, errEntries]

theorem collect_listings (outs : List (String × Outcome)) :
    ∀ stats errors acc,
      (collectOutcomes stats errors acc outs).2.2 =
        acc ++ batchListings outs := by
  induction outs with
  | nil => intro stats errors acc; simp [collectOutcomes, batchListings]
  | cons no rest ih =>
    intro stats errors acc
    obtain ⟨name, o⟩ := no
    by_cases ho : o.success <;> simp [collectOutcomes, ho, ih, batchListings]

end CollectLemmas

/-! ## Claims -/

/-- Modelled from the spec: the `price_ok` gate as §4.4 words it —
"true if either price is absent, or the absolute difference between
prices is ≤ max(5% of the larger price, a fixed $50 floor)".  Kept
side by side with `priceGateOk` (the source's gate) for comparison:
the source takes `min` where the spec takes `max`. -/
def specPriceOk (l1 l2 : Listing) : Bool :=
  match l1.price, l2.price with
  | some p1, some p2 => decide (|p1 - p2| ≤ max (max p1 p2 * (5 / 100)) 50)
  | _, _ => true

/-- C1: the claim states that with both prices present, a price
difference of at most `max(5% of the larger price, $50)` lets the gate
pass, consulting the title check.  The code computes the threshold with
`min`, not `max` (contradicting its own comment "must be within 5% or
$50").  At prices $2000 and $2090 the difference $90 is within the
claimed threshold `max(104.5, 50) = 104.5` and the titles are identical
(similarity 1 ≥ 0.85), yet `_listings_similar` short-circuits at the
price gate and returns False: the pair is classified as non-duplicates
although the claim requires the checks to be consulted (and they would
classify the pair as duplicates). -/
theorem c1_price_gate_min_not_max :
    listingsSimilar eqRatio (85 / 100)
        ⟨"", "2br apartment downtown", "ottawa", some 2000⟩
        ⟨"", "2br apartment downtown", "ottawa", some 2090⟩ =
      Except.ok false ∧
    specPriceOk ⟨"", "2br apartment downtown", "ottawa", some 2000⟩
        ⟨"", "2br apartment downtown", "ottawa", some 2090⟩ = true ∧
    eqRatio (pyLower "2br apartment downtown")
        (pyLower "2br apartment downtown") = 1 ∧
    (85 / 100 : ℚ) ≤ 1 := by
  refine ⟨?_, ?_, ?_, by norm_num⟩
  · have hg : priceGateOk
        ⟨"", "2br apartment downtown", "ottawa", some 2000⟩
        ⟨"", "2br apartment downtown", "ottawa", some 2090⟩ = false := by
      simp [priceGateOk]
      norm_num
    simp only [listingsSimilar, hg]
    simp
  · simp [specPriceOk]
    norm_num
  · simp [eqRatio]

/-- C4: when both listings carry a non-empty URL, `_listings_similar`
returns immediately with the verdict "duplicates iff the URLs are exactly
equal"; no price, title or location signal is consulted, for every ratio
function and threshold. -/
theorem c4_url_authority (ratio : String → String → ℚ) (thr : ℚ)
    (l1 l2 : Listing) (h1 : l1.url ≠ "") (h2 : l2.url ≠ "") :
    listingsSimilar ratio thr l1 l2 = Except.ok (decide (l1.url = l2.url)) := by
  rw [listingsSimilar, if_pos ⟨h1, h2⟩]

/-- Witness for C4 at two listings with distinct non-empty URLs but
identical titles, prices and locations: not duplicates. -/
theorem c4_url_authority_witness :
    ("http://a/1" : String) ≠ "" ∧ ("http://b/2" : String) ≠ "" ∧
      listingsSimilar eqRatio (85 / 100)
          ⟨"http://a/1", "2br", "ottawa", some 1000⟩
          ⟨"http://b/2", "2br", "ottawa", some 1000⟩ = Except.ok false := by
  refine ⟨by decide, by decide, ?_⟩
  have h := c4_url_authority eqRatio (85 / 100)
    ⟨"http://a/1", "2br", "ottawa", some 1000⟩
    ⟨"http://b/2", "2br", "ottawa", some 1000⟩ (by decide) (by decide)
  simpa using h

/-- C6: deduplicating `L ++ L` gives exactly the same outcome as
deduplicating `L`, for every listing sequence, every ratio function and
every threshold: after the first pass every listing of `L` is absorbed
(its signature is recorded or it fuzzy-matches an accepted listing), so
the second pass drops everything. -/
theorem c6_dedup_self_union (ratio : String → String → ℚ) (thr : ℚ)
    (L : List Listing) :
    dedupListings ratio thr (L ++ L) = dedupListings ratio thr L := by
  simp only [dedupListings, dedupAux_append]
  cases hL : dedupAux ratio thr L ([], []) with
  | error e => rfl
  | ok st =>
    have hnoop := dedupAux_noop ratio thr (dedupAux_absorbed ratio thr hL)
    simp [hnoop]

/-- The retention predicate exactly as claim C7 words it: the price is
present, is at least `minPrice` when one is given, and at most `maxPrice`
when one is given. -/
def specKeep (minP maxP : Option ℚ) (l : Listing) : Bool :=
  match l.price with
  | none => false
  | some p =>
      (match minP with | some m => decide (m ≤ p) | none => true) &&
      (match maxP with | some mx => decide (p ≤ mx) | none => true)

/-- C7: `filter_results` returns exactly the input listings, in input
order, that satisfy the claim's predicate (present price, inside the
inclusive given bounds); in particular every absent-price listing is
excluded when `minPrice = 1000` is given. -/
theorem c7_filter_results (ls : List Listing) (minP maxP : Option ℚ) :
    filterResults ls minP maxP = ls.filter (specKeep minP maxP) ∧
    (∀ l : Listing, l.price = none → l ∉ filterResults ls (some 1000) maxP) := by
  have key : ∀ (ls1 : List Listing) (mn mx : Option ℚ),
      filterResults ls1 mn mx = ls1.filter (specKeep mn mx) := by
    intro ls1 mn mx
    induction ls1 with
    | nil => rfl
    | cons l ls1 ih =>
      cases hp : l.price with
      | none => simp [filterResults, hp, ih, List.filter_cons, specKeep]
      | some p =>
        rcases mn with _ | m <;> rcases mx with _ | mx
        · simp [filterResults, hp, ih, List.filter_cons, specKeep]
        · by_cases h2 : mx < p
          · simp [filterResults, hp, ih, List.filter_cons, specKeep, h2,
              not_le.mpr h2]
          · simp [filterResults, hp, ih, List.filter_cons, specKeep, h2,
              not_lt.mp h2]
        · by_cases h1 : p < m
          · simp [filterResults, hp, ih, List.filter_cons, specKeep, h1,
              not_le.mpr h1]
          · simp [filterResults, hp, ih, List.filter_cons, specKeep, h1,
              not_lt.mp h1]
        · by_cases h1 : p < m
          · simp [filterResults, hp, ih, List.filter_cons, specKeep, h1,
              not_le.mpr h1]
          · by_cases h2 : mx < p
            · simp [filterResults, hp, ih, List.filter_cons, specKeep, h1,
                not_lt.mp h1, h2, not_le.mpr h2]
            · simp [filterResults, hp, ih, List.filter_cons, specKeep, h1,
                not_lt.mp h1, h2, not_lt.mp h2]
  refine ⟨key ls minP maxP, ?_⟩
  intro l hl hmem
  rw [key ls (some 1000) maxP] at hmem
  have := (List.mem_filter.mp hmem).2
  simp [specKeep, hl] at this

/-- Witness for C7: a concrete absent-price listing is excluded by a
`minPrice = 1000` filter, and the filter equality holds at that input. -/
theorem c7_filter_results_witness :
    (Listing.mk "" "a" "x" none).price = none ∧
    Listing.mk "" "a" "x" none ∉
      filterResults [Listing.mk "" "a" "x" none,
        Listing.mk "" "b" "x" (some 1200)] (some 1000) none :=
  ⟨rfl, (c7_filter_results
      [Listing.mk "" "a" "x" none, Listing.mk "" "b" "x" (some 1200)]
      (some 1000) none).2 _ rfl⟩

/-- C8: the claim states the predicate is total and merely skips the
title check when a title is absent.  In the code, when both titles are
empty (so `title_similarity` is never assigned) while both locations are
non-empty and the price gate passes, the location block evaluates
`title_similarity >= 0.7` and raises `UnboundLocalError` — the predicate
fails instead of returning a boolean. -/
theorem c8_unbound_title_similarity :
    listingsSimilar eqRatio (85 / 100)
        ⟨"", "", "ottawa", none⟩ ⟨"", "", "ottawa", none⟩ =
      Except.error () := by decide

/-- C5 counterexample: the claim promises the output non-decreasing by
price *among listings with a present price*.  The sort key maps a present
price of `0` to `float("inf")` (Python `0 or float("inf")`), so a
$0-priced listing sorts after a $500-priced one — two present prices in
decreasing order. -/
theorem c5_zero_price_counterexample :
    pySortListings
        [⟨"u1", "a", "x", some 500⟩, ⟨"u2", "b", "x", some 0⟩] =
      [⟨"u1", "a", "x", some 500⟩, ⟨"u2", "b", "x", some 0⟩] ∧
    (Listing.mk "u2" "b" "x" (some 0)).price = some 0 ∧
    (Listing.mk "u1" "a" "x" (some 500)).price = some 500 := by
  refine ⟨by decide, rfl, rfl⟩

/-- C5 amended: the final sort is non-decreasing in the Python sort key
(price when present *and nonzero*, `inf` for an absent or zero price), it
permutes the deduplicated input, and it is stable — for every key value
the subsequence of listings with that key is exactly the input
subsequence, so ties keep their original relative order and the sort is
deterministic.  Absent-or-zero-price listings (key `inf`) therefore
appear after all positively-priced ones. -/
theorem c5_sort_deterministic (L : List Listing) :
    List.Sorted keyLE (pySortListings L) ∧
    (pySortListings L).Perm L ∧
    ∀ k : Option ℚ,
      (pySortListings L).filter (fun y => priceKey y == k) =
        L.filter (fun y => priceKey y == k) :=
  ⟨sorted_pySort L, perm_pySort L, fun k => filter_key_pySort k L⟩

/-- C10: a zero price behaves exactly like an absent one in the two
places the claim points at.  (1) The fuzzy price gate is skipped (never
short-circuits to non-duplicate) when either compared price is `0`;
indeed the whole predicate is unchanged by replacing a zero price with an
absent one on either side.  (2) The sort key of a zero-or-absent price is
`inf`, and in the sorted output a zero-or-absent-price listing is never
followed by a positively-keyed one — every listing with a positive price
precedes every zero-or-absent-price listing. -/
theorem c10_zero_price_like_absent :
    (∀ l1 l2 : Listing, l1.price = some 0 ∨ l2.price = some 0 →
        priceGateOk l1 l2 = true) ∧
    (∀ (ratio : String → String → ℚ) (thr : ℚ) (l1 l2 : Listing),
        listingsSimilar ratio thr { l1 with price := some 0 } l2 =
          listingsSimilar ratio thr { l1 with price := none } l2 ∧
        listingsSimilar ratio thr l1 { l2 with price := some 0 } =
          listingsSimilar ratio thr l1 { l2 with price := none }) ∧
    (∀ l : Listing, l.price = some 0 ∨ l.price = none → priceKey l = none) ∧
    (∀ L : List Listing, (pySortListings L).Pairwise
        fun a b => priceKey a = none → priceKey b = none) := by
  have gate_zero : ∀ l1 l2 : Listing, l1.price = some 0 ∨ l2.price = some 0 →
      priceGateOk l1 l2 = true := by
    intro l1 l2 h
    unfold priceGateOk
    rcases hp1 : l1.price with _ | p1 <;> rcases hp2 : l2.price with _ | p2 <;>
      try rfl
    rcases h with h | h
    · rw [hp1] at h
      obtain rfl : p1 = 0 := by simpa using h
      simp
    · rw [hp2] at h
      obtain rfl : p2 = 0 := by simpa using h
      simp
  refine ⟨gate_zero, ?_, ?_, ?_⟩
  · intro ratio thr l1 l2
    constructor
    · have h1 : priceGateOk { l1 with price := some 0 } l2 = true :=
        gate_zero _ _ (Or.inl rfl)
      have h2 : priceGateOk { l1 with price := none } l2 = true := by
        unfold priceGateOk
        rcases l2.price with _ | p2 <;> rfl
      simp only [listingsSimilar, h1, h2, locationCheck]
    · have h1 : priceGateOk l1 { l2 with price := some 0 } = true :=
        gate_zero _ _ (Or.inr rfl)
      have h2 : priceGateOk l1 { l2 with price := none } = true := by
        unfold priceGateOk
        rcases l1.price with _ | p1 <;> rfl
      simp only [listingsSimilar, h1, h2, locationCheck]
  · intro l h
    rcases h with h | h <;> simp [priceKey, h]
  · intro L
    exact (sorted_pySort L).imp fun hab ha => priceKey_none_of_keyLE ha hab

/-- Witness for C10 at concrete listings: a zero price on one side makes
the gate pass, and the zero-price listing's sort key is `inf`. -/
theorem c10_zero_price_like_absent_witness :
    priceGateOk ⟨"", "t", "x", some 0⟩ ⟨"", "t", "x", some 900⟩ = true ∧
    priceKey ⟨"", "t", "x", some 0⟩ = none :=
  ⟨c10_zero_price_like_absent.1 _ _ (Or.inl rfl),
    c10_zero_price_like_absent.2.2.1 _ (Or.inl rfl)⟩

/-- C2: the claim states a timed-out batch still yields an aggregate
result with the still-running adapter recorded as a `Timeout` failure.
In the code the `TimeoutError` raised by `as_completed` occurs in the
`for` statement, outside the loop body's `try`/`except`, so `search_all`
aborts with the exception: no aggregate result, no listings, no errors
map — the already-completed adapters' results are discarded too. -/
theorem c2_timeout_aborts (ratio : String → String → ℚ) (thr : ℚ)
    (d : Bool) (stats0 : Stats) (completed : List (String × Outcome))
    (stillRunning : List String) (h : stillRunning ≠ []) :
    searchAllModel ratio thr d stats0 completed stillRunning =
      Except.error SearchError.timeout := by
  simp [searchAllModel, h]

/-- Witness for C2: one adapter completed successfully with a listing,
one still running at the deadline — the whole call aborts with
`TimeoutError` instead of returning that listing plus a Timeout error
entry. -/
theorem c2_timeout_aborts_witness :
    (["realtor_ca"] : List String) ≠ [] ∧
    searchAllModel eqRatio (85 / 100) true initStats
        [("kijiji",
          { success := true,
            listings := [⟨"http://a/1", "t1", "x", some 1500⟩],
            error := none })]
        ["realtor_ca"] = Except.error SearchError.timeout :=
  ⟨by decide,
    c2_timeout_aborts eqRatio (85 / 100) true initStats
      [("kijiji",
        { success := true,
          listings := [⟨"http://a/1", "t1", "x", some 1500⟩],
          error := none })]
      ["realtor_ca"] (by decide)⟩

/-- C3 counterexample: the claim expects one errors entry and
`scrapers_failed = 1` when one of three adapters raises during fetch.
But `BaseScraper.search` catches the exception itself and returns `[]`,
so `_run_scraper` reports a *successful* outcome with zero listings: the
aggregate has an empty errors map, `scrapers_failed = 0`, and
`scrapers_succeeded = 3` (the failing source even appears in `by_source`
with count 0). -/
theorem c3_counterexample :
    searchAllModel eqRatio (85 / 100) true initStats
        [("kijiji",
          runScraperModel (AdapterRun.runs
            (StepResult.ok [Listing.mk "http://a/1" "t1" "x" (some 1500)]))
            none none),
         ("realtor_ca",
          runScraperModel (AdapterRun.runs (StepResult.raises "ConnectionError"))
            none none),
         ("rentals_ca",
          runScraperModel (AdapterRun.runs
            (StepResult.ok [Listing.mk "http://b/1" "t2" "x" (some 1200)]))
            none none)] [] =
      Except.ok
        { listings := [Listing.mk "http://b/1" "t2" "x" (some 1200),
                       Listing.mk "http://a/1" "t1" "x" (some 1500)],
          stats :=
            { total_listings := 2, unique_listings := 2,
              duplicates_removed := 0, scrapers_succeeded := 3,
              scrapers_failed := 0,
              by_source :=
                [("kijiji", 1), ("realtor_ca", 0), ("rentals_ca", 1)] },
          errors := [] } := by decide

/-- C3 amended: on a fresh manager with three adapters of which exactly
one raises during fetch, the raise is swallowed inside `search`: the
failing adapter is recorded as a *success with zero listings* (even in
`by_source`), the errors map is empty, `scrapers_failed = 0`,
`scrapers_succeeded = 3`, and the result carries the other two adapters'
listings, deduplicated and sorted. -/
theorem c3_fetch_error_swallowed (ratio : String → String → ℚ) (thr : ℚ)
    (l1 l3 : List Listing) (msg : String) (us : List Listing)
    (hlen : 1 < (l1 ++ l3).length)
    (hded : dedupListings ratio thr (l1 ++ l3) = Except.ok us) :
    searchAllModel ratio thr true initStats
        [("kijiji", { success := true, listings := l1, error := none }),
         ("realtor_ca",
          runScraperModel (AdapterRun.runs (StepResult.raises msg)) none none),
         ("rentals_ca", { success := true, listings := l3, error := none })]
        [] =
      Except.ok
        { listings := pySortListings us,
          stats :=
            { total_listings := (l1 ++ l3).length,
              unique_listings := us.length,
              duplicates_removed := (l1 ++ l3).length - us.length,
              scrapers_succeeded := 3, scrapers_failed := 0,
              by_source :=
                [("kijiji", l1.length), ("realtor_ca", 0),
                 ("rentals_ca", l3.length)] },
          errors := [] } := by
  have hlen2 : 1 < l1.length + l3.length := by simpa using hlen
  simp only [searchAllModel, collectOutcomes, runScraperModel, baseSearch,
    setAssoc, initStats]
  simp [hlen2, hded]

/-- Witness for C3 amended at a concrete batch: adapters returning one
listing each plus one whose fetch raises. -/
theorem c3_fetch_error_swallowed_witness :
    1 < ([Listing.mk "http://a/1" "t1" "x" (some 1500)] ++
        [Listing.mk "http://b/1" "t2" "x" (some 1200)]).length ∧
    dedupListings eqRatio (85 / 100)
        ([Listing.mk "http://a/1" "t1" "x" (some 1500)] ++
          [Listing.mk "http://b/1" "t2" "x" (some 1200)]) =
      Except.ok [Listing.mk "http://a/1" "t1" "x" (some 1500),
        Listing.mk "http://b/1" "t2" "x" (some 1200)] ∧
    searchAllModel eqRatio (85 / 100) true initStats
        [("kijiji",
          { success := true,
            listings := [Listing.mk "http://a/1" "t1" "x" (some 1500)],
            error := none }),
         ("realtor_ca",
          runScraperModel (AdapterRun.runs (StepResult.raises "boom"))
            none none),
         ("rentals_ca",
          { success := true,
            listings := [Listing.mk "http://b/1" "t2" "x" (some 1200)],
            error := none })] [] =
      Except.ok
        { listings := pySortListings
            [Listing.mk "http://a/1" "t1" "x" (some 1500),
             Listing.mk "http://b/1" "t2" "x" (some 1200)],
          stats :=
            { total_listings :=
                ([Listing.mk "http://a/1" "t1" "x" (some 1500)] ++
                  [Listing.mk "http://b/1" "t2" "x" (some 1200)]).length,
              unique_listings :=
                [Listing.mk "http://a/1" "t1" "x" (some 1500),
                 Listing.mk "http://b/1" "t2" "x" (some 1200)].length,
              duplicates_removed :=
                ([Listing.mk "http://a/1" "t1" "x" (some 1500)] ++
                    [Listing.mk "http://b/1" "t2" "x" (some 1200)]).length -
                  [Listing.mk "http://a/1" "t1" "x" (some 1500),
                   Listing.mk "http://b/1" "t2" "x" (some 1200)].length,
              scrapers_succeeded := 3, scrapers_failed := 0,
              by_source := [("kijiji", 1), ("realtor_ca", 0),
                ("rentals_ca", 1)] },
          errors := [] } := by
  refine ⟨by decide, by decide, ?_⟩
  have h := c3_fetch_error_swallowed eqRatio (85 / 100)
    [Listing.mk "http://a/1" "t1" "x" (some 1500)]
    [Listing.mk "http://b/1" "t2" "x" (some 1200)] "boom"
    [Listing.mk "http://a/1" "t1" "x" (some 1500),
     Listing.mk "http://b/1" "t2" "x" (some 1200)]
    (by decide) (by decide)
  simpa using h

/-- Projection of a terminated `search_all` call's `self.stats`
(defaulting to `initStats` for an aborted call); the response embeds
`self.stats.copy()` taken after all updates, so this is also the
instance state the next call starts from. -/
def respStats (e : Except SearchError Response) : Stats :=
  match e with
  | Except.ok r => r.stats
  | Except.error _ => initStats

/-- The batch used by the C9 theorems: one successful adapter returning
one listing. -/
def c9batch : List (String × Outcome) :=
  [("kijiji",
    { success := true,
      listings := [Listing.mk "http://a/1" "t1" "x" (some 1500)],
      error := none })]

/-- C9 counterexample: the claim says two successive identical
`search_all` calls yield equal stats.  `search_all` never resets
`self.stats` and updates `scrapers_succeeded` with `+=`, so the first
call reports `scrapers_succeeded = 1` and the identical second call
reports `2`. -/
theorem c9_accumulation_counterexample :
    (respStats (searchAllModel eqRatio (85 / 100) true initStats
        c9batch [])).scrapers_succeeded = 1 ∧
    (respStats (searchAllModel eqRatio (85 / 100) true
        (respStats (searchAllModel eqRatio (85 / 100) true initStats
          c9batch []))
        c9batch [])).scrapers_succeeded = 2 := by decide

/-- C9 amended: per-invocation data is fresh — the listings and the
errors map of a call do not depend on the stats state the manager
carries into it — but the counters `scrapers_succeeded` and
`scrapers_failed` accumulate: a call adds this batch's counts on top of
whatever `self.stats` already held, so repeated identical calls do not
yield equal stats. -/
theorem c9_fresh_data_accumulated_counters (ratio : String → String → ℚ)
    (thr : ℚ) (d : Bool) (stats0 : Stats)
    (outs : List (String × Outcome)) :
    ((searchAllModel ratio thr d stats0 outs []).map
        fun r => (r.listings, r.errors)) =
      ((searchAllModel ratio thr d initStats outs []).map
        fun r => (r.listings, r.errors)) ∧
    ∀ r : Response, searchAllModel ratio thr d stats0 outs [] = Except.ok r →
      r.stats.scrapers_succeeded =
          stats0.scrapers_succeeded + succCount outs ∧
        r.stats.scrapers_failed = stats0.scrapers_failed + failCount outs := by
  have hE : ∀ s : Stats, (collectOutcomes s [] [] outs).2.1 = errEntries outs :=
    fun s => by simpa using collect_errors outs s [] []
  have hL : ∀ s : Stats,
      (collectOutcomes s [] [] outs).2.2 = batchListings outs :=
    fun s => by simpa using collect_listings outs s [] []
  constructor
  · simp only [searchAllModel, hE, hL]
    by_cases hd : d = true ∧ 1 < (batchListings outs).length
    · simp only [if_pos rfl, if_pos hd]
      cases dedupListings ratio thr (batchListings outs) <;>
        simp [Except.map]
    · simp only [if_pos rfl, if_neg hd]
      simp [Except.map]
  · intro r hr
    have hS := collect_succeeded outs stats0 [] []
    have hF := collect_failed outs stats0 [] []
    simp only [searchAllModel, hL, if_pos rfl] at hr
    by_cases hd : d = true ∧ 1 < (batchListings outs).length
    · rw [if_pos hd] at hr
      cases hded2 : dedupListings ratio thr (batchListings outs) with
      | error e => rw [hded2] at hr; cases hr
      | ok uniq =>
        rw [hded2] at hr
        cases hr
        exact ⟨by simpa using hS, by simpa using hF⟩
    · rw [if_neg hd] at hr
      cases hr
      exact ⟨by simpa using hS, by simpa using hF⟩

/-- Witness for C9 amended at the concrete one-adapter batch. -/
theorem c9_fresh_data_accumulated_counters_witness :
    searchAllModel eqRatio (85 / 100) true initStats c9batch [] =
      Except.ok
        { listings := [Listing.mk "http://a/1" "t1" "x" (some 1500)],
          stats :=
            { total_listings := 1, unique_listings := 1,
              duplicates_removed := 0, scrapers_succeeded := 1,
              scrapers_failed := 0, by_source := [("kijiji", 1)] },
          errors := [] } ∧
    ({ total_listings := 1, unique_listings := 1, duplicates_removed := 0,
       scrapers_succeeded := 1, scrapers_failed := 0,
       by_source := [("kijiji", 1)] } : Stats).scrapers_succeeded =
        initStats.scrapers_succeeded + succCount c9batch ∧
    ({ total_listings := 1, unique_listings := 1, duplicates_removed := 0,
       scrapers_succeeded := 1, scrapers_failed := 0,
       by_source := [("kijiji", 1)] } : Stats).scrapers_failed =
        initStats.scrapers_failed + failCount c9batch := by
  refine ⟨by decide, ?_⟩
  have h := (c9_fresh_data_accumulated_counters eqRatio (85 / 100) true
    initStats c9batch).2
    { listings := [Listing.mk "http://a/1" "t1" "x" (some 1500)],
      stats :=
        { total_listings := 1, unique_listings := 1,
          duplicates_removed := 0, scrapers_succeeded := 1,
          scrapers_failed := 0, by_source := [("kijiji", 1)] },
      errors := [] } (by decide)
  exact h

end RentFalcon
